import Mathlib

/-!
Verification of the portfolio-ai chat backend (src/server.js).

Text is modelled as `List Char`.  The JavaScript functions
`pushToMemory`, `sanitize` and `enforceMarkdownStructure`, together with
the body of the POST /chat handler, are embedded as executable Lean
definitions below, and the documented properties of the service are
proved about them.
-/

/-- Text of the program is a list of characters. -/
abbrev Str := List Char

/-! ## Character classes used by the JavaScript regular expressions -/

/-- Characters matched by the regex `.` in JavaScript (non-dotall mode):
everything except the four line terminators. -/
def jsDot (c : Char) : Bool :=
  !(c = '\n' || c = '\r' || c = '\u2028' || c = '\u2029')

/-- Characters matched by `\s` in JavaScript regular expressions, also the
set removed by `String.prototype.trim`. -/
def isJsWS (c : Char) : Bool :=
  c = ' ' || c = '\t' || c = '\n' || c = '\r' || c = '\x0b' || c = '\x0c' ||
  c = '\u00a0' || c = '\u1680' || ('\u2000' ≤ c && c ≤ '\u200a') ||
  c = '\u2028' || c = '\u2029' || c = '\u202f' || c = '\u205f' ||
  c = '\u3000' || c = '\ufeff'

/-- The sentence-ending punctuation class `[.?!]` of the split regex. -/
def isSentencePunct (c : Char) : Bool :=
  c = '.' || c = '?' || c = '!'

/-! ## Generic string helpers (JS `includes`, `trim`) -/

/-- Whether `p` is a literal initial segment of `s`. -/
def strStartsWith : Str → Str → Bool
  | [], _ => true
  | _ :: _, [] => false
  | p :: ps, c :: cs => p = c && strStartsWith ps cs

/-- JavaScript `String.prototype.includes`: `pat` occurs as a contiguous
substring of `s`. -/
def strIncludes (s pat : Str) : Bool :=
  if strStartsWith pat s then true
  else
    match s with
    | [] => false
    | _ :: cs => strIncludes cs pat

/-- JavaScript `String.prototype.trim`: drop whitespace from both ends. -/
def trimStr (s : Str) : Str :=
  ((s.dropWhile isJsWS).reverse.dropWhile isJsWS).reverse

/-! ## The sanitizer (src/server.js lines 91-96)

`sanitize` first deletes every match of the global case-insensitive
non-greedy regex `<script.*?>.*?<\/script>`, then deletes every `<` and
`>` character, then trims. -/

/-- Case-insensitive (ASCII folding, as for ASCII-only patterns under the
regex `i` flag) removal of the literal pattern `p` from the front of `s`,
returning the remainder on success. -/
def dropLitCI : Str → Str → Option Str
  | [], s => some s
  | _ :: _, [] => none
  | p :: ps, c :: cs => if c.toLower = p.toLower then dropLitCI ps cs else none

/-- The suffixes of `s` reachable by letting a non-greedy `.*?` consume
0, 1, 2, … characters, shortest consumption first; consumption stops at
the first character `.` cannot match. -/
def dotSuffixes : Str → List Str
  | [] => [[]]
  | c :: cs => (c :: cs) :: (if jsDot c then dotSuffixes cs else [])

/-- The literal `<script` that opens the script regex. -/
def scriptOpen : Str := ['<', 's', 'c', 'r', 'i', 'p', 't']

/-- The literal `</script>` that closes the script regex. -/
def scriptClose : Str := ['<', '/', 's', 'c', 'r', 'i', 'p', 't', '>']

/-- Given the text `r` following a matched `<script`, try to complete the
match `.*?>.*?</script>` in backtracking order (both `.*?` minimal first),
returning the text after the whole match. -/
def matchScriptTail (r : Str) : Option Str :=
  (dotSuffixes r).findSome? fun s1 =>
    match s1 with
    | '>' :: b => (dotSuffixes b).findSome? fun s2 => dropLitCI scriptClose s2
    | _ => none

/-- Global replacement of `<script.*?>.*?<\/script>` by the empty string:
scan left to right, resuming after each removed match.  `fuel` bounds the
recursion; every step consumes at least one character of `s`, so
`fuel = s.length` is always sufficient. -/
def removeScriptsFuel : Nat → Str → Str
  | 0, s => s
  | fuel + 1, s =>
    match s with
    | [] => []
    | c :: cs =>
      match dropLitCI scriptOpen (c :: cs) with
      | some r =>
        match matchScriptTail r with
        | some rest => removeScriptsFuel fuel rest
        | none => c :: removeScriptsFuel fuel cs
      | none => c :: removeScriptsFuel fuel cs

/-- `text.replace(/<script.*?>.*?<\/script>/gi, "")`. -/
def removeScripts (s : Str) : Str :=
  removeScriptsFuel s.length s

/-- `text.replace(/[<>]/g, "")`. -/
def stripAngles (s : Str) : Str :=
  s.filter fun c => !(c = '<' || c = '>')

/-- src/server.js lines 91-96: script-block removal, then angle-bracket
removal, then trim. -/
def sanitize (s : Str) : Str :=
  trimStr (stripAngles (removeScripts s))

/-! ## The memory buffer (src/server.js lines 48-60) -/

/-- One chat turn `{ role, content }`. -/
structure ChatTurn where
  role : Str
  content : Str
deriving DecidableEq, Repr

/-- `const MAX_MEMORY_MESSAGES = 6`. -/
def MAX_MEMORY_MESSAGES : Nat := 6

/-- src/server.js lines 54-60: push `{ role, content }` at the back, then
if the length exceeds the capacity, `shift()` removes the front element. -/
def pushToMemory (mem : List ChatTurn) (role content : Str) : List ChatTurn :=
  let m := mem ++ [ChatTurn.mk role content]
  if m.length > MAX_MEMORY_MESSAGES then m.tail else m

/-! ## The structure enforcer (src/server.js lines 66-86) -/

/-- `text.includes("##") || text.includes("- ") || text.includes("**")`,
the check for already-structured markdown. -/
def structuredCheck (t : Str) : Bool :=
  strIncludes t ['#', '#'] || strIncludes t ['-', ' '] || strIncludes t ['*', '*']

/-- `text.split(/[.?!]\s+/)`: scan left to right; a separator is one of
`.?!` followed by a maximal non-empty whitespace run.  `cur` holds the
reversed current fragment; `fuel` bounds the recursion (each step consumes
at least one character, so the text length is always sufficient fuel). -/
def splitSentencesFuel : Nat → Str → Str → List Str
  | 0, s, cur => [cur.reverse ++ s]
  | fuel + 1, s, cur =>
    match s with
    | [] => [cur.reverse]
    | c :: cs =>
      match cs with
      | c2 :: cs2 =>
        if isSentencePunct c && isJsWS c2 then
          cur.reverse :: splitSentencesFuel fuel ((c2 :: cs2).dropWhile isJsWS) []
        else
          splitSentencesFuel fuel cs (c :: cur)
      | [] => [(c :: cur).reverse]

/-- `text.split(/[.?!]\s+/)`. -/
def splitSentences (t : Str) : List Str :=
  splitSentencesFuel t.length t []

/-- The heading literal prepended by the enforcer:
`"## 📌 Response\n\n"`. -/
def headingLit : Str := "## 📌 Response\n\n".toList

/-- One bulleted output line: `- ${line.trim()}\n`. -/
def bulletLine (line : Str) : Str :=
  '-' :: ' ' :: (trimStr line ++ ['\n'])

/-- src/server.js lines 66-86: empty text maps to the empty string; text
already containing a markdown marker is returned unchanged; otherwise the
text is split into sentence fragments, empty fragments are discarded
(`filter(Boolean)`), and each fragment becomes a bulleted line under the
fixed heading. -/
def enforceMarkdownStructure (text : Str) : Str :=
  if text = [] then []
  else if structuredCheck text then text
  else
    let lines := (splitSentences text).filter (fun l => l ≠ [])
    lines.foldl (fun output line => output ++ bulletLine line) headingLit

/-! ## The chat handler (src/server.js lines 113-180)

The handler is embedded as a pure function of the current memory, the
request fields, and the outcome of the provider call.  `message` can be
any JSON value, so it is modelled as a `JsVal`; `system` is an optional
string (the spec's `system: optional text`). -/

/-- A JSON/JavaScript value as far as the handler's validation observes
it: `req.body?.message` may be absent (`undef`), `null`, a boolean, a
number or a string. -/
inductive JsVal where
  | undef
  | nullv
  | bool (b : Bool)
  | num (n : Int)
  | str (s : Str)
deriving DecidableEq, Repr

/-- JavaScript truthiness of a `JsVal` (`!x` is the negation of this):
`undefined`, `null`, `false`, `0` and `""` are falsy. -/
def truthy : JsVal → Bool
  | .undef => false
  | .nullv => false
  | .bool b => b
  | .num n => n ≠ 0
  | .str s => s ≠ []

/-- `typeof x === "string"`. -/
def isStringVal : JsVal → Bool
  | .str _ => true
  | _ => false

/-- The string content of a `JsVal`, used only under the string guard. -/
def strOf : JsVal → Str
  | .str s => s
  | _ => []

/-- The provider call behind `groq.chat.completions.create`: it either
throws/rejects, or resolves with `completion?.choices?.[0]?.message?.content`
(`none` when that chain is absent or null). -/
inductive ProviderOutcome where
  | err
  | ok (content : Option Str)
deriving DecidableEq, Repr

/-- `"## ⚠️ Invalid Request\n- Message missing or invalid"`, the 400 reply. -/
def invalidLit : Str := "## ⚠️ Invalid Request\n- Message missing or invalid".toList

/-- `"## ⚠️ AI Error\n- Empty response received"`, the fallback reply body
substituted when the provider returns no (or falsy) content. -/
def emptyRespLit : Str := "## ⚠️ AI Error\n- Empty response received".toList

/-- The template-literal 500 reply of the catch block. -/
def serverErrLit : Str :=
  "\n## ❌ Server Error\n- AI backend temporarily unavailable\n- Please click **Retry**\n      ".toList

/-- Role literal `"user"`. -/
def userRole : Str := "user".toList

/-- Role literal `"assistant"`. -/
def assistantRole : Str := "assistant".toList

/-- Role literal `"system"`. -/
def systemRole : Str := "system".toList

/-- `completion?.choices?.[0]?.message?.content || "## ⚠️ AI Error\n- Empty
response received"`: the reply text before structure enforcement. -/
def replyBase : Option Str → Str
  | some c => if c ≠ [] then c else emptyRespLit
  | none => emptyRespLit

/-- The observable result of one request to POST /chat: HTTP status, the
JSON `reply`, the memory buffer after handling, and the message list sent
to the provider (`none` when the provider was not invoked). -/
structure HandlerResult where
  status : Nat
  reply : Str
  memory : List ChatTurn
  outbound : Option (List ChatTurn)
deriving DecidableEq, Repr

/-- src/server.js lines 113-180, the body of `app.post("/chat")`:
validation, sanitization, pre-call memory push, message assembly,
provider call, reply extraction, structure enforcement, post-call memory
push.  `mem` is the buffer before the request, `outcome` the behaviour of
the provider on this call. -/
def handleChat (mem : List ChatTurn) (message : JsVal) (system : Option Str)
    (outcome : ProviderOutcome) : HandlerResult :=
  if !truthy message || !isStringVal message then
    ⟨400, invalidLit, mem, none⟩
  else
    let userMessage := sanitize (strOf message)
    let systemPrompt : Option Str :=
      match system with
      | some s => if s ≠ [] then some (sanitize s) else none
      | none => none
    let mem1 := pushToMemory mem userRole userMessage
    let messages :=
      (match systemPrompt with
       | some sp => if sp ≠ [] then [ChatTurn.mk systemRole sp] else []
       | none => []) ++ mem1
    match outcome with
    | .err => ⟨500, serverErrLit, mem1, some messages⟩
    | .ok content =>
      let aiReply := enforceMarkdownStructure (replyBase content)
      let mem2 := pushToMemory mem1 assistantRole aiReply
      ⟨200, aiReply, mem2, some messages⟩

/-! ## Helper lemmas -/

/-- Length of the buffer after one push. -/
lemma length_pushToMemory (mem : List ChatTurn) (r c : Str) :
    (pushToMemory mem r c).length
      = if 6 ≤ mem.length then mem.length else mem.length + 1 := by
  simp only [pushToMemory, MAX_MEMORY_MESSAGES]
  split <;> rename_i hcond <;>
    simp only [List.length_tail, List.length_append, List.length_cons,
      List.length_nil, gt_iff_lt] at hcond ⊢ <;>
    split <;> omega

/-- The just-pushed turn is always in the resulting buffer. -/
lemma self_mem_pushToMemory (mem : List ChatTurn) (r c : Str) :
    ChatTurn.mk r c ∈ pushToMemory mem r c := by
  simp only [pushToMemory]
  split
  · next hgt =>
    cases mem with
    | nil => simp [MAX_MEMORY_MESSAGES] at hgt
    | cons x xs => simp
  · simp

/-- Folding an append-step equals appending the flattened mapped list. -/
lemma foldl_append_flatten (f : Str → Str) :
    ∀ (ls : List Str) (init : Str),
      ls.foldl (fun output l => output ++ f l) init = init ++ (ls.map f).flatten := by
  intro ls
  induction ls with
  | nil => intro init; simp
  | cons x xs ih => intro init; simp [ih, List.append_assoc]

/-- A literal initial segment survives appending on the right. -/
lemma strStartsWith_append {p s : Str} (u : Str) (h : strStartsWith p s = true) :
    strStartsWith p (s ++ u) = true := by
  induction p generalizing s with
  | nil => simp [strStartsWith]
  | cons a as ih =>
    cases s with
    | nil => simp [strStartsWith] at h
    | cons b bs =>
      simp only [strStartsWith, Bool.and_eq_true] at h ⊢
      exact ⟨h.1, ih h.2⟩

/-- A string that starts with `pat` includes `pat`. -/
lemma strIncludes_of_startsWith {s pat : Str} (h : strStartsWith pat s = true) :
    strIncludes s pat = true := by
  cases s with
  | nil => simp [strIncludes, h]
  | cons c cs => simp [strIncludes, h]

/-- The outbound message list of a valid request: the optional sanitized
system entry followed by the buffer with the user turn pushed. -/
def sysEntryList : Option Str → List ChatTurn
  | some t => if sanitize t ≠ [] then [ChatTurn.mk systemRole (sanitize t)] else []
  | none => []

lemma sanitize_nil : sanitize [] = [] := rfl

/-- For every valid request the handler sends the provider exactly the
optional system entry followed by the updated buffer. -/
lemma handleChat_outbound_eq (mem : List ChatTurn) (s : Str) (system : Option Str)
    (outcome : ProviderOutcome) (hs : s ≠ []) :
    (handleChat mem (JsVal.str s) system outcome).outbound
      = some (sysEntryList system ++ pushToMemory mem userRole (sanitize s)) := by
  have hg : (!truthy (JsVal.str s) || !isStringVal (JsVal.str s)) = false := by
    simp [truthy, isStringVal, hs]
  cases system with
  | none =>
    cases outcome <;> simp [handleChat, hg, sysEntryList, strOf]
  | some t =>
    by_cases ht : t = []
    · subst ht
      cases outcome <;> simp [handleChat, hg, sysEntryList, sanitize_nil, strOf]
    · cases outcome <;> simp [handleChat, hg, sysEntryList, ht, strOf]

/-- A concrete full buffer used by the witnesses. -/
def fullMem : List ChatTurn := List.replicate 6 (ChatTurn.mk userRole ['a'])

/-! ## Claims -/

/-- Claim C1: starting from the empty buffer, no sequence of
`pushToMemory` calls ever brings the shared memory buffer above 6 turns;
equivalently, `length ≤ 6` is an invariant preserved by every push. -/
theorem chat_memory_bound :
    (∀ ops : List (Str × Str),
      (ops.foldl (fun m p => pushToMemory m p.1 p.2) []).length ≤ 6) ∧
    ∀ (mem : List ChatTurn) (r c : Str),
      mem.length ≤ 6 → (pushToMemory mem r c).length ≤ 6 := by
  have step : ∀ (mem : List ChatTurn) (r c : Str),
      mem.length ≤ 6 → (pushToMemory mem r c).length ≤ 6 := by
    intro mem r c h
    rw [length_pushToMemory]
    split <;> omega
  refine ⟨?_, step⟩
  intro ops
  suffices h : ∀ (ops : List (Str × Str)) (mem : List ChatTurn), mem.length ≤ 6 →
      (ops.foldl (fun m p => pushToMemory m p.1 p.2) mem).length ≤ 6 by
    exact h ops [] (by simp)
  intro ops
  induction ops with
  | nil => intro mem h; simpa using h
  | cons p ps ih =>
    intro mem h
    exact ih (pushToMemory mem p.1 p.2) (step mem p.1 p.2 h)

/-- Witness for C1 at a concrete full buffer. -/
theorem chat_memory_bound_witness :
    (pushToMemory fullMem userRole ['b']).length ≤ 6 :=
  chat_memory_bound.2 fullMem userRole ['b'] (by decide)

/-- Claim C2: on a buffer within capacity, `pushToMemory` appends the new
turn at the back; when that would exceed capacity 6 it drops exactly the
oldest (front) element, giving length 6, and keeps the order of the
retained turns (strict FIFO). -/
theorem pushToMemory_fifo :
    ∀ (mem : List ChatTurn) (r c : Str), mem.length ≤ 6 →
      pushToMemory mem r c
        = (if mem.length = 6 then mem.tail else mem) ++ [ChatTurn.mk r c] ∧
      (mem.length = 6 → (pushToMemory mem r c).length = 6) := by
  intro mem r c h
  constructor
  · simp only [pushToMemory]
    split
    · next hgt =>
      simp only [List.length_append, List.length_cons, List.length_nil,
        MAX_MEMORY_MESSAGES, gt_iff_lt] at hgt
      have h6 : mem.length = 6 := by omega
      rw [if_pos h6]
      cases mem with
      | nil => simp at h6
      | cons x xs => simp
    · next hle =>
      simp only [List.length_append, List.length_cons, List.length_nil,
        MAX_MEMORY_MESSAGES, gt_iff_lt] at hle
      have h6 : mem.length ≠ 6 := by omega
      rw [if_neg h6]
  · intro h6
    rw [length_pushToMemory]
    split <;> omega

/-- Witness for C2 at a concrete full buffer. -/
theorem pushToMemory_fifo_witness :
    (pushToMemory fullMem assistantRole ['b']
        = (if fullMem.length = 6 then fullMem.tail else fullMem)
            ++ [ChatTurn.mk assistantRole ['b']]) ∧
    (fullMem.length = 6 → (pushToMemory fullMem assistantRole ['b']).length = 6) :=
  pushToMemory_fifo fullMem assistantRole ['b'] (by decide)

/-- Claim C3 counterexample: the spec's second example value is wrong; the
code leaves the inner text and the slash in place, so
`sanitize("<b>hi</b>")` is not `"hib"` (it is `"bhi/b"`). -/
theorem sanitize_bold_example_false :
    sanitize ("<b>hi</b>".toList) ≠ "hib".toList := by decide

/-- Claim C3 (amended): `sanitize` removes case-insensitive non-greedy
script-tag blocks, then deletes every remaining angle bracket, then trims;
`sanitize("<script>alert(1)</script>hello") = "hello"` and
`sanitize("<b>hi</b>") = "bhi/b"` (not `"hib"`). -/
theorem sanitize_spec :
    (∀ t : Str, sanitize t = trimStr (stripAngles (removeScripts t))) ∧
    sanitize ("<script>alert(1)</script>hello".toList) = "hello".toList ∧
    sanitize ("<b>hi</b>".toList) = "bhi/b".toList :=
  ⟨fun _ => rfl, by decide, by decide⟩

/-- Claim C4: a request whose `message` is absent, non-string, or the
empty string gets a 400 with the fixed error reply, no provider
invocation, and an unchanged memory buffer. -/
theorem handleChat_invalid_message :
    ∀ (msg : JsVal) (mem : List ChatTurn) (system : Option Str)
      (outcome : ProviderOutcome),
      isStringVal msg = false ∨ msg = JsVal.str [] →
      handleChat mem msg system outcome = ⟨400, invalidLit, mem, none⟩ := by
  intro msg mem system outcome h
  have hg : (!truthy msg || !isStringVal msg) = true := by
    rcases h with h | h
    · simp [h]
    · subst h; simp [truthy]
  simp [handleChat, hg]

/-- Witness for C4 at `message` absent. -/
theorem handleChat_invalid_message_witness :
    handleChat [] JsVal.undef none ProviderOutcome.err
      = ⟨400, invalidLit, [], none⟩ :=
  handleChat_invalid_message JsVal.undef [] none ProviderOutcome.err (Or.inl rfl)

/-- Claim C5: when the provider call fails, the handler answers 500 with
the fixed fallback reply, and the memory buffer is exactly the pre-call
buffer with the sanitized user turn pushed — that user turn is still
present, and no assistant turn was added. -/
theorem handleChat_provider_failure :
    ∀ (mem : List ChatTurn) (s : Str) (system : Option Str), s ≠ [] →
      (handleChat mem (JsVal.str s) system ProviderOutcome.err).status = 500 ∧
      (handleChat mem (JsVal.str s) system ProviderOutcome.err).reply
        = serverErrLit ∧
      (handleChat mem (JsVal.str s) system ProviderOutcome.err).memory
        = pushToMemory mem userRole (sanitize s) ∧
      ChatTurn.mk userRole (sanitize s)
        ∈ (handleChat mem (JsVal.str s) system ProviderOutcome.err).memory := by
  intro mem s system hs
  have hg : (!truthy (JsVal.str s) || !isStringVal (JsVal.str s)) = false := by
    simp [truthy, isStringVal, hs]
  refine ⟨?_, ?_, ?_, ?_⟩ <;>
    simp [handleChat, hg, strOf, self_mem_pushToMemory]

/-- Witness for C5 at a concrete request. -/
theorem handleChat_provider_failure_witness :
    (handleChat [] (JsVal.str ['h', 'i']) none ProviderOutcome.err).status = 500 ∧
    (handleChat [] (JsVal.str ['h', 'i']) none ProviderOutcome.err).reply
      = serverErrLit ∧
    (handleChat [] (JsVal.str ['h', 'i']) none ProviderOutcome.err).memory
      = pushToMemory [] userRole (sanitize ['h', 'i']) ∧
    ChatTurn.mk userRole (sanitize ['h', 'i'])
      ∈ (handleChat [] (JsVal.str ['h', 'i']) none ProviderOutcome.err).memory :=
  handleChat_provider_failure [] ['h', 'i'] none (by decide)

/-- Claim C6 counterexample: a supplied system prompt whose sanitized form
is empty (here `"<>"`) injects no system entry, so the outbound list is
not the system entry followed by the buffer. -/
theorem handleChat_system_entry_cex :
    (handleChat [] (JsVal.str "hi".toList) (some "<>".toList)
        ProviderOutcome.err).outbound
      = some [ChatTurn.mk userRole "hi".toList] ∧
    (handleChat [] (JsVal.str "hi".toList) (some "<>".toList)
        ProviderOutcome.err).outbound
      ≠ some (ChatTurn.mk systemRole (sanitize "<>".toList)
          :: pushToMemory [] userRole (sanitize "hi".toList)) := by
  exact ⟨by decide, by decide⟩

/-- Claim C6 (amended): for every valid request the outbound message list
is the entry `{ role: system, content: sanitize(system) }` first when a
system prompt with non-empty sanitized form was supplied, followed by the
full current memory buffer (which already includes the just-pushed
sanitized user turn); when no system prompt is supplied, or its sanitized
form is empty, no system entry is injected. -/
theorem handleChat_outbound_messages :
    ∀ (mem : List ChatTurn) (s : Str) (system : Option Str)
      (outcome : ProviderOutcome), s ≠ [] →
      (handleChat mem (JsVal.str s) system outcome).outbound
        = some (sysEntryList system ++ pushToMemory mem userRole (sanitize s)) ∧
      sysEntryList none = [] ∧
      (∀ t : Str, sanitize t ≠ [] →
        sysEntryList (some t) = [ChatTurn.mk systemRole (sanitize t)]) ∧
      (∀ t : Str, sanitize t = [] → sysEntryList (some t) = []) := by
  intro mem s system outcome hs
  refine ⟨handleChat_outbound_eq mem s system outcome hs, rfl, ?_, ?_⟩
  · intro t ht; simp [sysEntryList, ht]
  · intro t ht; simp [sysEntryList, ht]

/-- Witness for C6 at a concrete request with a system prompt. -/
theorem handleChat_outbound_messages_witness :
    (handleChat [] (JsVal.str ['h', 'i']) (some ['b', 'e'])
        ProviderOutcome.err).outbound
      = some (sysEntryList (some ['b', 'e'])
          ++ pushToMemory [] userRole (sanitize ['h', 'i'])) ∧
    sysEntryList none = [] ∧
    (∀ t : Str, sanitize t ≠ [] →
      sysEntryList (some t) = [ChatTurn.mk systemRole (sanitize t)]) ∧
    (∀ t : Str, sanitize t = [] → sysEntryList (some t) = []) :=
  handleChat_outbound_messages [] ['h', 'i'] (some ['b', 'e'])
    ProviderOutcome.err (by decide)

/-- Claim C7 counterexample: the empty string contains none of the
markers, yet the enforcer returns it as-is rather than a heading with
bullets, so the claim's universal statement fails at `""`. -/
theorem enforceMarkdownStructure_empty_cex :
    structuredCheck [] = false ∧
    enforceMarkdownStructure [] = [] ∧
    strStartsWith headingLit (enforceMarkdownStructure []) = false := by decide

/-- Claim C7 (amended): text containing `##`, `- ` or `**` is returned
unchanged; the empty string maps to itself; any other non-empty text
becomes the fixed heading followed by one bulleted line per non-empty
fragment of the sentence split; in particular text containing `**bold**`
is unchanged and `"A. B. C."` becomes a heading plus one bullet per
fragment. -/
theorem enforceMarkdownStructure_spec :
    (∀ t : Str, structuredCheck t = true → enforceMarkdownStructure t = t) ∧
    enforceMarkdownStructure [] = [] ∧
    (∀ t : Str, t ≠ [] → structuredCheck t = false →
      enforceMarkdownStructure t
        = headingLit
          ++ (((splitSentences t).filter (fun l => l ≠ [])).map bulletLine).flatten) ∧
    enforceMarkdownStructure ("keep **bold** text".toList)
      = "keep **bold** text".toList ∧
    enforceMarkdownStructure ("A. B. C.".toList)
      = "## 📌 Response\n\n- A\n- B\n- C.\n".toList := by
  refine ⟨?_, rfl, ?_, by decide, by decide⟩
  · intro t ht
    by_cases h0 : t = []
    · subst h0; exact absurd ht (by decide)
    · simp [enforceMarkdownStructure, h0, ht]
  · intro t h0 ht
    simp [enforceMarkdownStructure, h0, ht, foldl_append_flatten]

/-- Witness for C7 at concrete structured and plain inputs. -/
theorem enforceMarkdownStructure_spec_witness :
    enforceMarkdownStructure ("x ## y".toList) = "x ## y".toList ∧
    enforceMarkdownStructure ("hello world".toList)
      = headingLit
        ++ (((splitSentences ("hello world".toList)).filter
              (fun l => l ≠ [])).map bulletLine).flatten :=
  ⟨enforceMarkdownStructure_spec.1 ("x ## y".toList) (by decide),
   enforceMarkdownStructure_spec.2.2.1 ("hello world".toList)
     (by decide) (by decide)⟩

/-- Claim C8 counterexample: a present but empty first-choice content also
triggers the fallback (JavaScript `||` treats `""` as missing), so the
reply is the fallback text, not the (empty) content. -/
theorem handleChat_empty_content_cex :
    (handleChat [] (JsVal.str "hi".toList) none
        (ProviderOutcome.ok (some []))).reply = emptyRespLit ∧
    (handleChat [] (JsVal.str "hi".toList) none
        (ProviderOutcome.ok (some []))).reply ≠ [] := by decide

/-- Claim C8 (amended): the reply is built from the first choice's content
when that is a non-empty string; when the content is absent or empty the
fixed fallback error text is substituted; the text actually pushed to
memory and returned is the structure enforcer applied to that base, which
leaves the fallback unchanged. -/
theorem handleChat_reply_extraction :
    ∀ (mem : List ChatTurn) (s : Str) (system : Option Str)
      (content : Option Str), s ≠ [] →
      (handleChat mem (JsVal.str s) system (ProviderOutcome.ok content)).reply
        = enforceMarkdownStructure (replyBase content) ∧
      (handleChat mem (JsVal.str s) system (ProviderOutcome.ok content)).memory
        = pushToMemory (pushToMemory mem userRole (sanitize s)) assistantRole
            (enforceMarkdownStructure (replyBase content)) ∧
      (∀ c : Str, c ≠ [] → replyBase (some c) = c) ∧
      replyBase none = emptyRespLit ∧
      replyBase (some []) = emptyRespLit ∧
      enforceMarkdownStructure emptyRespLit = emptyRespLit := by
  intro mem s system content hs
  have hg : (!truthy (JsVal.str s) || !isStringVal (JsVal.str s)) = false := by
    simp [truthy, isStringVal, hs]
  refine ⟨?_, ?_, ?_, rfl, rfl, by decide⟩
  · simp [handleChat, hg, strOf]
  · simp [handleChat, hg, strOf]
  · intro c hc; simp [replyBase, hc]

/-- Witness for C8 at a concrete request and provider result. -/
theorem handleChat_reply_extraction_witness :
    (handleChat [] (JsVal.str ['h', 'i']) none
        (ProviderOutcome.ok (some ['o', 'k']))).reply
      = enforceMarkdownStructure (replyBase (some ['o', 'k'])) ∧
    (handleChat [] (JsVal.str ['h', 'i']) none
        (ProviderOutcome.ok (some ['o', 'k']))).memory
      = pushToMemory (pushToMemory [] userRole (sanitize ['h', 'i']))
          assistantRole (enforceMarkdownStructure (replyBase (some ['o', 'k']))) ∧
    (∀ c : Str, c ≠ [] → replyBase (some c) = c) ∧
    replyBase none = emptyRespLit ∧
    replyBase (some []) = emptyRespLit ∧
    enforceMarkdownStructure emptyRespLit = emptyRespLit :=
  handleChat_reply_extraction [] ['h', 'i'] none (some ['o', 'k']) (by decide)

/-- Claim C9: the structure enforcer is idempotent — a restructured
output starts with the `##` heading marker and is therefore returned
unchanged by a second pass, and the empty string maps to itself. -/
theorem enforceMarkdownStructure_idempotent :
    ∀ t : Str,
      enforceMarkdownStructure (enforceMarkdownStructure t)
        = enforceMarkdownStructure t := by
  intro t
  by_cases h0 : t = []
  · subst h0; rfl
  · by_cases hs : structuredCheck t = true
    · have e1 : enforceMarkdownStructure t = t := by
        simp [enforceMarkdownStructure, h0, hs]
      rw [e1, e1]
    · have key : ∀ X : Str,
          enforceMarkdownStructure (headingLit ++ X) = headingLit ++ X := by
        intro X
        have hne : headingLit ++ X ≠ [] := by simp [headingLit]
        have h2 : strStartsWith ['#', '#'] (headingLit ++ X) = true :=
          strStartsWith_append X (by decide)
        have hmark : structuredCheck (headingLit ++ X) = true := by
          unfold structuredCheck
          rw [strIncludes_of_startsWith h2]
          rfl
        simp [enforceMarkdownStructure, hne, hmark]
      have e1 : enforceMarkdownStructure t
          = headingLit
            ++ (((splitSentences t).filter (fun l => l ≠ [])).map bulletLine).flatten := by
        simp [enforceMarkdownStructure, h0, hs, foldl_append_flatten]
      rw [e1, key]

/-- Claim C10: a supplied system prompt that sanitizes to the empty string
is treated as absent — no system entry is injected and the outbound list
is the memory buffer alone. -/
theorem handleChat_blank_system_ignored :
    ∀ (mem : List ChatTurn) (s t : Str) (outcome : ProviderOutcome),
      s ≠ [] → sanitize t = [] →
      (handleChat mem (JsVal.str s) (some t) outcome).outbound
        = some (pushToMemory mem userRole (sanitize s)) ∧
      (handleChat mem (JsVal.str s) (some t) outcome).outbound
        = (handleChat mem (JsVal.str s) none outcome).outbound := by
  intro mem s t outcome hs ht
  have h1 := handleChat_outbound_eq mem s (some t) outcome hs
  have h2 := handleChat_outbound_eq mem s none outcome hs
  rw [h1, h2]
  simp [sysEntryList, ht]

/-- Witness for C10 at the system prompt `"<>"`. -/
theorem handleChat_blank_system_ignored_witness :
    (handleChat [] (JsVal.str ['h', 'i']) (some ['<', '>'])
        ProviderOutcome.err).outbound
      = some (pushToMemory [] userRole (sanitize ['h', 'i'])) ∧
    (handleChat [] (JsVal.str ['h', 'i']) (some ['<', '>'])
        ProviderOutcome.err).outbound
      = (handleChat [] (JsVal.str ['h', 'i']) none ProviderOutcome.err).outbound :=
  handleChat_blank_system_ignored [] ['h', 'i'] ['<', '>']
    ProviderOutcome.err (by decide) (by decide)
